import Mathlib

/-!
Verification of the contact-address trust scoring engine
(clara_care/tools/email_validator.py and clara_care/tools/web_search.py).

Modelling conventions (shallow embedding):
- Python strings are modelled as List Char; String is used for the
  human-readable messages the functions return.
- Python floats are modelled as ℚ.  All float constants in the source
  (0.5, 0.2, 0.3, the heuristic weights …) are exact decimals, and every
  arithmetic fact claimed about them holds both for IEEE doubles and for
  the corresponding rationals, so ℚ is a faithful model at the claimed
  points.
- str.strip() / str.lower() / str.isdigit() / str.isalpha() are modelled
  on their ASCII behaviour (the regexes in the source are ASCII-only and
  every constant in the provider/TLD tables is ASCII).
- The regular expressions are modelled by dedicated matchers.  Both
  anchored patterns in the source end in "$", which in Python also
  matches just before a single trailing newline; the matchers reproduce
  that.
- DNS is modelled by an explicit environment (DnsEnv) describing the
  outcome of each query the code can make; the process-wide socket
  default timeout is modelled by threading the observable values of that
  global through check_domain_mx_records.
-/

/-- Convert a Lean string literal to the List Char representation used for
Python strings throughout this development. -/
def lc (s : String) : List Char := s.data

/-- Characters stripped by Python str.strip() (ASCII whitespace:
space, tab, newline, carriage return, vertical tab, form feed). -/
def pyIsSpace (c : Char) : Bool :=
  c == ' ' || c == '\t' || c == '\n' || c == '\r' ||
  c == Char.ofNat 11 || c == Char.ofNat 12

/-- Python str.strip(): drop whitespace from both ends. -/
def pyStrip (l : List Char) : List Char :=
  ((l.dropWhile pyIsSpace).reverse.dropWhile pyIsSpace).reverse

/-- Python str.lower() on a single character (ASCII range). -/
def charLower (c : Char) : Char :=
  if 65 ≤ c.toNat ∧ c.toNat ≤ 90 then Char.ofNat (c.toNat + 32) else c

/-- Python str.lower(). -/
def pyLower (l : List Char) : List Char := l.map charLower

/-- Python substring test (needle in haystack). -/
def isInfixB (n : List Char) : List Char → Bool
  | [] => n.isEmpty
  | h :: t => n.isPrefixOf (h :: t) || isInfixB n t

/-- Part of a string after the last occurrence of a separator character;
models s.rsplit(c, 1)[-1] when c occurs in s (and is the whole string
when it does not). -/
def afterLast (c : Char) (l : List Char) : List Char :=
  (l.reverse.takeWhile (· != c)).reverse

/-- Part of a string before the last occurrence of a separator character;
models s.rsplit(c, 1)[0] when c occurs in s. -/
def beforeLast (c : Char) (l : List Char) : List Char :=
  ((l.reverse.dropWhile (· != c)).drop 1).reverse

/-- Character class [a-zA-Z0-9._%+-] of the email regex (the part before
the @). -/
def isLocalChar (c : Char) : Bool :=
  c.isAlpha || c.isDigit || c == '.' || c == '_' || c == '%' || c == '+' || c == '-'

/-- Character class [a-zA-Z0-9.-] of the email regex (the part after
the @). -/
def isDomainChar (c : Char) : Bool :=
  c.isAlpha || c.isDigit || c == '.' || c == '-'

/-- Matcher for the anchored tail of the email pattern after the @:
one-or-more domain characters, then a literal dot, then two-or-more
letters, consuming the whole remaining input.  A whole-string match must
put the final letter block at the very end, so it is the maximal letter
suffix, the character before it must be the literal dot, and everything
before that must be a non-empty run of domain characters. -/
def matchDomainTail (v : List Char) : Bool :=
  let r := v.reverse
  let t := r.takeWhile Char.isAlpha
  decide (2 ≤ t.length) &&
    (match r.drop t.length with
     | '.' :: w => !w.isEmpty && w.all isDomainChar
     | _ => false)

/-- Whole-string match of the email regex
[a-zA-Z0-9._%+-]+@[a-zA-Z0-9.-]+[.][a-zA-Z]{2,} used with leading ^ and
trailing $ in email_validator.py.  Since the local-part class excludes @,
the local part of a whole-string match is exactly the maximal run of
local characters before the first @. -/
def emailPatternCore (s : List Char) : Bool :=
  let a := s.takeWhile isLocalChar
  !a.isEmpty &&
    (match s.drop a.length with
     | '@' :: rest => matchDomainTail rest
     | _ => false)

/-- Python re anchored match including the "$ also matches before one
trailing newline" rule. -/
def emailPatternMatch (s : List Char) : Bool :=
  emailPatternCore s ||
    (match s.getLast? with
     | some c => c == '\n' && emailPatternCore s.dropLast
     | none => false)

/-- Model of check_email_format (email_validator.py lines 64-118).
Returns (is_valid, list of validation issues). -/
def check_email_format (email : List Char) : Bool × List String :=
  if email.isEmpty then (false, ["Email is empty"]) else
  let e := pyStrip email
  if !(emailPatternMatch e) then
    (false, ["Email format does not match RFC 5322 pattern"]) else
  if !(e.contains '@') then (false, ["Email missing @ symbol"]) else
  let lp := beforeLast '@' e
  let dom := afterLast '@' e
  let issues : List String :=
    (if lp.length < 1 then ["Local part (before @) is empty"]
     else if lp.length > 64 then ["Local part exceeds 64 characters"]
     else [])
    ++ (if (lc ".").isPrefixOf lp then ["Local part starts with period"] else [])
    ++ (if (lc ".").isSuffixOf lp then ["Local part ends with period"] else [])
    ++ (if isInfixB (lc "..") lp then ["Local part contains consecutive periods"] else [])
    ++ (if dom.length < 3 then ["Domain is too short"]
        else if dom.length > 255 then ["Domain exceeds 255 characters"]
        else [])
    ++ (if (lc ".").isPrefixOf dom then ["Domain starts with period"] else [])
    ++ (if (lc "-").isPrefixOf dom then ["Domain starts with hyphen"] else [])
    ++ (if (lc "-").isSuffixOf dom then ["Domain ends with hyphen"] else [])
    ++ (if isInfixB (lc "..") dom then ["Domain contains consecutive periods"] else [])
  (issues.isEmpty, issues)

/-- C7 counterexample: on the whitespace-only input " " the format
validator is invalid with a single issue, but that issue is the
RFC-5322-pattern message, not the "Email is empty" message the claim
requires for every empty-or-whitespace-only input. -/
theorem C7_counterexample :
    (check_email_format (lc " ")).1 = false ∧
    (check_email_format (lc " ")).2 = ["Email format does not match RFC 5322 pattern"] ∧
    (check_email_format (lc " ")).2 ≠ ["Email is empty"] := by decide

/-- C7 (amended): for every input that is empty or consists only of
whitespace characters, the format validator returns valid = false with
exactly one issue; for the empty input that issue reports that the email
is empty, and for a whitespace-only non-empty input it reports that the
format does not match the RFC 5322 pattern. -/
theorem C7_empty_or_whitespace_invalid (email : List Char) (h : pyStrip email = []) :
    (check_email_format email).1 = false ∧
    (check_email_format email).2 =
      (if email.isEmpty then ["Email is empty"]
       else ["Email format does not match RFC 5322 pattern"]) := by
  by_cases he : email.isEmpty
  · simp [check_email_format, he]
  · simp [check_email_format, he, h, emailPatternMatch, emailPatternCore]

/-- C7 witness: the whitespace-only input " " satisfies the hypothesis
and the amended conclusion. -/
theorem C7_witness :
    pyStrip (lc " ") = [] ∧ (check_email_format (lc " ")).1 = false :=
  ⟨by decide, (C7_empty_or_whitespace_invalid (lc " ") (by decide)).1⟩

/-- C8: for every input string the format validator's result satisfies
valid = true iff the issues list is empty, and on the cited example
"user..name@example.com" it is invalid with a consecutive-periods issue
among the reported issues. -/
theorem C8_valid_iff_issues_empty :
    (∀ email : List Char,
      ((check_email_format email).1 = true ↔ (check_email_format email).2 = [])) ∧
    (check_email_format (lc "user..name@example.com")).1 = false ∧
    "Local part contains consecutive periods" ∈
      (check_email_format (lc "user..name@example.com")).2 := by
  refine ⟨fun email => ?_, by decide, by decide⟩
  simp only [check_email_format]
  split
  · simp
  · split
    · simp
    · split
      · simp
      · simp [List.isEmpty_iff]

/-- Model of calculate_validation_score (email_validator.py lines 291-328).
Floats are modelled as rationals; the decimal constants and every value
the claims evaluate are exact in both models. -/
def calculate_validation_score (format_valid domain_exists domain_matches_brand : Bool)
    (brand_match_confidence suspicion_penalty : ℚ) : ℚ :=
  if !format_valid then 0 else
  let score : ℚ := 0.5
  let score := if domain_exists then score + 0.2 else score
  let score := if domain_matches_brand then score + 0.3 * brand_match_confidence else score
  let score := score * (1 - suspicion_penalty)
  max 0 (min 1 score)

/-- C1: under the BrandMatch well-formedness invariant of the data model
(a non-match carries confidence 0, which is what check_domain_matches_brand
always produces), the score composer returns 0 when the format is invalid
and otherwise the clamp to [0,1] of
(0.5 + 0.2*[domain exists] + 0.3*confidence) * (1 - penalty); in
particular with format valid, domain existing, confidence 1 and penalty 0
the score is exactly 1, and with penalty 1/2 it is exactly 1/2. -/
theorem C1_score_composition (fv de m : Bool) (conf pen : ℚ)
    (h : m = false → conf = 0) :
    (calculate_validation_score fv de m conf pen =
      if fv then
        max 0 (min 1 ((0.5 + (if de then (0.2 : ℚ) else 0) + 0.3 * conf) * (1 - pen)))
      else 0) ∧
    calculate_validation_score true true true 1 0 = 1 ∧
    calculate_validation_score true true true 1 0.5 = 0.5 := by
  refine ⟨?_, ?_, ?_⟩
  · cases fv with
    | false => simp [calculate_validation_score]
    | true =>
      cases m with
      | false =>
        have hc := h rfl
        cases de <;> simp [calculate_validation_score, hc]
      | true =>
        cases de <;> simp [calculate_validation_score]
  · norm_num [calculate_validation_score, min_def, max_def]
  · norm_num [calculate_validation_score, min_def, max_def]

/-- C1 witness: concrete instantiation with a matching brand at
confidence 1, existing domain and zero penalty scores exactly 1. -/
theorem C1_witness :
    calculate_validation_score true true true 1 0 = 1 :=
  (C1_score_composition true true true 1 0 (by simp)).2.1

/-- Outcome of the dns.resolver.resolve(domain, "MX") call: an answer
with n records, or one of the exceptions the source distinguishes
(NoAnswer, NXDOMAIN, NoNameservers), or any other resolver exception --
including dns timeouts -- carried with its message. -/
inductive MxOutcome where
  | records (n : Nat)
  | noAnswer
  | nxdomain
  | noNameservers
  | failure (msg : String)
deriving DecidableEq

/-- Outcome of the fallback dns.resolver.resolve(domain, "A") call: an
answer with n records, or any exception. -/
inductive AOutcome where
  | records (n : Nat)
  | failure
deriving DecidableEq

/-- Outcome of the socket.gethostbyname fallback: success, a
socket.gaierror, or any other exception carried with its message. -/
inductive HostOutcome where
  | resolves
  | gaierror
  | failure (msg : String)
deriving DecidableEq

/-- DNS environment for one domain: whether the dnspython library imports,
and the outcome of each query check_domain_mx_records can make. -/
structure DnsEnv where
  dnspythonAvailable : Bool
  mx : MxOutcome
  a : AOutcome
  host : HostOutcome
deriving DecidableEq

/-- Body of check_domain_mx_records (email_validator.py lines 132-171):
the try/except ladder that turns every DNS outcome into a
(has_mx_records, message) pair.  The timeout argument does not influence
the result (it is only written into the socket default timeout). -/
def checkDomainMxBody (env : DnsEnv) : Bool × String :=
  if env.dnspythonAvailable then
    match env.mx with
    | .records n =>
        if n ≠ 0 then (true, "Found " ++ toString n ++ " MX record(s)")
        else (false, "No MX records found")
    | .noAnswer =>
        match env.a with
        | .records n =>
            if n ≠ 0 then (true, "No MX records but A record exists")
            else (false, "No MX or A records found")
        | .failure => (false, "No MX or A records found")
    | .nxdomain => (false, "Domain does not exist (NXDOMAIN)")
    | .noNameservers => (false, "No nameservers available for domain")
    | .failure msg => (false, "DNS lookup error: " ++ msg)
  else
    match env.host with
    | .resolves => (true, "Domain resolves (MX check unavailable)")
    | .gaierror => (false, "Domain does not resolve")
    | .failure msg => (false, "MX check error: " ++ msg)

/-- Model of check_domain_mx_records (email_validator.py lines 121-174)
with the process-wide socket default timeout made explicit: g0 is the
global timeout before the call (socket.getdefaulttimeout()); the second
component lists the values of that global observable by other threads at
the successive points of the call -- before the call, after the
socket.setdefaulttimeout(timeout) at the top of the try block (i.e.
while the DNS queries run) and after the finally block restores the
saved value. -/
def check_domain_mx_records (env : DnsEnv) (timeout : ℚ) (g0 : Option ℚ) :
    (Bool × String) × List (Option ℚ) :=
  (checkDomainMxBody env, [g0, some timeout, g0])

/-- C2: evaluated at a concrete call (timeout 5.0 with no default timeout
set, MX records found), the resolver writes the process-wide socket
default timeout: while the DNS query runs the global state observable by
concurrent callers is some 5, not the original none, refuting the claim
that the global timeout state is unchanged at every point during the
call.  (The finally block does restore the original value afterwards.) -/
theorem C2_global_timeout_is_mutated :
    (check_domain_mx_records ⟨true, .records 2, .records 1, .resolves⟩ 5 none).2 =
      [none, some 5, none] ∧
    ¬ ((check_domain_mx_records ⟨true, .records 2, .records 1, .resolves⟩ 5 none).2.all
        (· = none)) := by
  constructor
  · rfl
  · intro h
    simp [check_domain_mx_records] at h

/-- Helper: a string append whose left part is non-empty is a non-empty
string. -/
theorem strAppend_ne_empty (a b : String) (h : a.data ≠ []) : a ++ b ≠ "" := by
  intro hc
  apply h
  have hd := congrArg String.data hc
  simp only [String.data_append] at hd
  exact (List.append_eq_nil.mp hd).1

/-- Success condition of the DNS resolution model, written from the
claim: MX records exist, or the MX lookup reported no answer and the
A-record fallback succeeds, or -- with the DNS library unavailable --
the best-effort hostname resolution succeeds. -/
def dnsSuccess (env : DnsEnv) : Prop :=
  (env.dnspythonAvailable = true ∧ ∃ n, 0 < n ∧ env.mx = .records n) ∨
  (env.dnspythonAvailable = true ∧ env.mx = .noAnswer ∧ ∃ n, 0 < n ∧ env.a = .records n) ∨
  (env.dnspythonAvailable = false ∧ env.host = .resolves)

/-- C3: for every DNS outcome and timeout the resolver returns a value
(the model is a total function, matching the source whose except ladder
catches every exception), its exists flag is true exactly on the success
condition of the claim, and the detail message is non-empty in every
case. -/
theorem C3_resolver_total_and_classified (env : DnsEnv) (timeout : ℚ) (g0 : Option ℚ) :
    ((check_domain_mx_records env timeout g0).1.1 = true ↔ dnsSuccess env) ∧
    (check_domain_mx_records env timeout g0).1.2 ≠ "" := by
  constructor
  · simp only [check_domain_mx_records, checkDomainMxBody, dnsSuccess]
    cases ha : env.dnspythonAvailable <;>
      cases hmx : env.mx <;>
      cases hh : env.host <;>
      cases haa : env.a <;>
      dsimp only <;>
      split_ifs <;>
      simp_all <;>
      try omega
  · simp only [check_domain_mx_records, checkDomainMxBody]
    cases ha : env.dnspythonAvailable <;>
      cases hmx : env.mx <;>
      cases hh : env.host <;>
      cases haa : env.a <;>
      dsimp only <;>
      split_ifs <;>
      first
        | decide
        | exact strAppend_ne_empty _ _ (by simp [String.data_append])

/-- Python str.replace(a, b) for single characters. -/
def replaceChar (a b : Char) (l : List Char) : List Char :=
  l.map (fun c => if c == a then b else c)

/-- Python str.replace(a, "") for a single character. -/
def removeChar (a : Char) (l : List Char) : List Char :=
  l.filter (· != a)

/-- Base name of a domain: the part before the final dot-delimited TLD
label when there is a dot, the whole domain otherwise (models
domain.rsplit(".", 1)[0] if "." in domain else domain). -/
def baseName (domain : List Char) : List Char :=
  if domain.contains '.' then beforeLast '.' domain else domain

/-- Model of check_domain_matches_brand (email_validator.py lines
177-218).  Returns (matches, confidence_score, reasoning). -/
def check_domain_matches_brand (email brand_name : List Char) : Bool × ℚ × String :=
  if !(email.contains '@') || brand_name.isEmpty then
    (false, 0, "Invalid email or brand name")
  else
    let domain := pyLower (afterLast '@' email)
    let brand_lower := pyStrip (pyLower brand_name)
    let domain_without_tld := baseName domain
    if brand_lower == domain_without_tld then
      (true, 1, "Domain '" ++ String.mk domain ++ "' exactly matches brand '" ++
        String.mk brand_name ++ "'")
    else if isInfixB brand_lower (removeChar '.' (removeChar '-' domain)) then
      (true, 0.9, "Domain '" ++ String.mk domain ++ "' contains brand '" ++
        String.mk brand_name ++ "'")
    else
      let brand_variations :=
        [brand_lower, removeChar ' ' brand_lower, replaceChar ' ' '-' brand_lower,
          removeChar '.' brand_lower]
      match brand_variations.find? (fun v => isInfixB v domain_without_tld) with
      | some v => (true, 0.8, "Domain contains brand variation '" ++ String.mk v ++ "'")
      | none =>
          (false, 0, "Domain '" ++ String.mk domain ++
            "' does not appear to match brand '" ++ String.mk brand_name ++ "'")

/-- Confidence ladder exactly as the claim words it: 1.0 on exact
base-name equality, else 0.9 on substring of the separator-stripped
domain, else 0.8 when one of the three brand variations (spaces removed,
spaces replaced by hyphens, dots removed) occurs in the base name, else
0.0.  The brand is normalized the way the source normalizes it
(lower-cased and whitespace-stripped). -/
def claimBrandConfidence (email brand : List Char) : ℚ :=
  let domain := pyLower (afterLast '@' email)
  let bn := pyStrip (pyLower brand)
  let base := baseName domain
  if bn == base then 1
  else if isInfixB bn (removeChar '.' (removeChar '-' domain)) then 0.9
  else if [removeChar ' ' bn, replaceChar ' ' '-' bn, removeChar '.' bn].any
      (fun v => isInfixB v base) then 0.8
  else 0

/-- Confidence ladder of the claim amended minimally: the unmodified
normalized brand itself is also tried as a variation in the 0.8 tier,
exactly as the source's brand_variations list has it. -/
def amendedBrandConfidence (email brand : List Char) : ℚ :=
  let domain := pyLower (afterLast '@' email)
  let bn := pyStrip (pyLower brand)
  let base := baseName domain
  if bn == base then 1
  else if isInfixB bn (removeChar '.' (removeChar '-' domain)) then 0.9
  else if [bn, removeChar ' ' bn, replaceChar ' ' '-' bn, removeChar '.' bn].any
      (fun v => isInfixB v base) then 0.8
  else 0

/-- C4 counterexample: for the address u@xa.b cz.tld (which contains @)
and the non-empty brand "a.b c", none of the claim's tier conditions
holds -- the normalized brand differs from the base name "xa.b cz", it
is not a substring of the separator-stripped domain, and none of the
three claimed variations occurs in the base name -- so the claim
requires matches = false with confidence 0.0; the code instead matches
the unmodified brand as a fourth variation and returns matches = true
with confidence 0.8. -/
theorem C4_counterexample :
    (lc "u@xa.b cz.tld").contains '@' = true ∧
    (lc "a.b c").isEmpty = false ∧
    claimBrandConfidence (lc "u@xa.b cz.tld") (lc "a.b c") = 0 ∧
    (check_domain_matches_brand (lc "u@xa.b cz.tld") (lc "a.b c")).1 = true ∧
    (check_domain_matches_brand (lc "u@xa.b cz.tld") (lc "a.b c")).2.1 = 0.8 := by
  refine ⟨by decide, by decide, ?_, by decide, ?_⟩ <;> rfl

/-- C4 (amended): for every address containing @ and every non-empty
brand, the matcher returns exactly one of the fixed tiers tested in
order, where the 0.8 tier tries the unmodified normalized brand in
addition to the three claimed variations; matches is true exactly when
the confidence is non-zero; and the three cited examples evaluate as the
claim states. -/
theorem C4_brand_match_tiers (email brand : List Char)
    (he : email.contains '@' = true) (hb : brand.isEmpty = false) :
    ((check_domain_matches_brand email brand).2.1 = amendedBrandConfidence email brand) ∧
    ((check_domain_matches_brand email brand).1 = true ↔
      amendedBrandConfidence email brand ≠ 0) ∧
    (check_domain_matches_brand (lc "support@sony.com") (lc "Sony")).1 = true ∧
    (check_domain_matches_brand (lc "support@sony.com") (lc "Sony")).2.1 = 1 ∧
    (check_domain_matches_brand (lc "support@support.sony.com") (lc "Sony")).2.1 = 0.9 ∧
    (check_domain_matches_brand (lc "support@example.com") (lc "Sony")).1 = false ∧
    (check_domain_matches_brand (lc "support@example.com") (lc "Sony")).2.1 = 0 := by
  have hmain : ((check_domain_matches_brand email brand).2.1 =
      amendedBrandConfidence email brand) ∧
      ((check_domain_matches_brand email brand).1 = true ↔
        amendedBrandConfidence email brand ≠ 0) := by
    simp only [check_domain_matches_brand, amendedBrandConfidence]
    rw [if_neg (show ¬((!(email.contains '@') || brand.isEmpty) = true) by
      intro hc
      simp only [he, hb, Bool.not_true, Bool.or_false] at hc
      exact absurd hc (by decide))]
    set bn := pyStrip (pyLower brand) with hbn
    set dom := pyLower (afterLast '@' email) with hdom
    set base := baseName dom with hbase
    split_ifs with h1 h2 h3
    · exact ⟨rfl, by norm_num⟩
    · exact ⟨rfl, by norm_num⟩
    · split
      · exact ⟨rfl, by norm_num⟩
      · next hfind =>
        exfalso
        obtain ⟨x, hx, hpx⟩ := List.any_eq_true.mp h3
        exact (List.find?_eq_none.mp hfind) x hx hpx
    · split
      · next v hfind =>
        exfalso
        have hv0 := List.find?_some hfind
        exact h3 (List.any_eq_true.mpr ⟨v, List.mem_of_find?_eq_some hfind, hv0⟩)
      · exact ⟨rfl, by simp⟩
  refine ⟨hmain.1, hmain.2, by decide, ?_, ?_, by decide, ?_⟩ <;> rfl

/-- C4 witness: concrete instantiation of the amended tier theorem at
the first cited example. -/
theorem C4_witness :
    (check_domain_matches_brand (lc "support@sony.com") (lc "Sony")).2.1 =
      amendedBrandConfidence (lc "support@sony.com") (lc "Sony") :=
  (C4_brand_match_tiers (lc "support@sony.com") (lc "Sony") (by decide) (by decide)).1

/-- Free email provider table (email_validator.py lines 25-43). -/
def FREE_EMAIL_PROVIDERS : List (List Char) :=
  [lc "gmail.com", lc "yahoo.com", lc "yahoo.co.uk", lc "hotmail.com",
   lc "outlook.com", lc "live.com", lc "aol.com", lc "icloud.com",
   lc "mail.com", lc "protonmail.com", lc "proton.me", lc "zoho.com",
   lc "yandex.com", lc "gmx.com", lc "gmx.net", lc "tutanota.com",
   lc "fastmail.com"]

/-- Suspicious TLD table (email_validator.py lines 46-61). -/
def SUSPICIOUS_TLDS : List (List Char) :=
  [lc "xyz", lc "top", lc "click", lc "link", lc "info", lc "biz",
   lc "win", lc "loan", lc "work", lc "date", lc "racing", lc "review",
   lc "download", lc "stream"]

/-- Vowel test (c in "aeiou"). -/
def isVowel (c : Char) : Bool := (lc "aeiou").contains c

/-- Whole-string match of the IPv4 regex \d{1,3}(\.\d{1,3}){3}: exactly
four dot-separated groups of one to three digits. -/
def ipv4Core (l : List Char) : Bool :=
  let gs := l.splitOn '.'
  gs.length == 4 &&
    gs.all (fun g => decide (1 ≤ g.length) && decide (g.length ≤ 3) && g.all Char.isDigit)

/-- Python re anchored match of the IPv4 pattern, including the
trailing-newline behaviour of the $ anchor. -/
def ipv4Match (l : List Char) : Bool :=
  ipv4Core l ||
    (match l.getLast? with
     | some c => c == '\n' && ipv4Core l.dropLast
     | none => false)

/-- Vowel-ratio comparison of the source (vowels / len(letters) < 0.15),
as a Bool on the two counts. -/
def ratioBelow (vowels letters : Nat) : Bool :=
  decide ((vowels : ℚ) / letters < 0.15)

/-- Helper: for a positive letter count the rational vowel-ratio test is
the integer comparison 20 * vowels < 3 * letters. -/
theorem ratioBelow_eq (v l : Nat) (hl : 0 < l) :
    ratioBelow v l = decide (20 * v < 3 * l) := by
  have hl' : (0:ℚ) < l := by exact_mod_cast hl
  simp only [ratioBelow, decide_eq_decide]
  rw [div_lt_iff₀ hl', show (0.15:ℚ) = 3/20 by norm_num]
  constructor
  · intro h
    have h2 : (20 * v : ℚ) < 3 * l := by linarith
    exact_mod_cast h2
  · intro h
    have h2 : (20 * v : ℚ) < 3 * l := by exact_mod_cast h
    linarith

/-- Model of detect_suspicious_patterns (email_validator.py lines
221-288).  Returns (suspicion flags, penalty); the flags are appended in
source order and the penalty accumulates one weight per triggered
heuristic, capped at 1.0 on return. -/
def detect_suspicious_patterns (email : List Char) : List String × ℚ :=
  if !(email.contains '@') then (["Invalid email format"], 1) else
  let local_lower := pyLower (beforeLast '@' email)
  let domain := afterLast '@' email
  let domain_lower := pyLower domain
  let b1 := FREE_EMAIL_PROVIDERS.contains domain_lower
  let tld := if domain_lower.contains '.' then afterLast '.' domain_lower else []
  let b2 := SUSPICIOUS_TLDS.contains tld
  let domain_no_tld := if domain_lower.contains '.' then beforeLast '.' domain_lower else domain
  let digit_count := (domain_no_tld.filter Char.isDigit).length
  let b3 := decide (3 < digit_count)
  let letters := (removeChar '-' domain_no_tld).filter Char.isAlpha
  let b4 := decide (4 < letters.length) &&
    ratioBelow ((letters.filter isVowel).length) letters.length
  let b5 := (lc "no-reply").isPrefixOf local_lower || (lc "noreply").isPrefixOf local_lower
  let b6 := (lc "admin").isPrefixOf local_lower || (lc "postmaster").isPrefixOf local_lower
  let b7 := decide (100 < email.length)
  let b8 := ipv4Match domain
  let flags : List String :=
    (if b1 then ["Free email provider: " ++ String.mk domain_lower] else []) ++
    ((if b2 then ["Suspicious TLD: ." ++ String.mk tld] else []) ++
    ((if b3 then ["Domain contains many numbers: " ++ toString digit_count ++ " digits"] else []) ++
    ((if b4 then ["Domain appears random (low vowel ratio)"] else []) ++
    ((if b5 then ["No-reply address unlikely to be support contact"] else []) ++
    ((if b6 then ["Administrative address unlikely to be support contact"] else []) ++
    ((if b7 then ["Unusually long email address: " ++ toString email.length ++ " characters"] else []) ++
    (if b8 then ["Domain is an IP address"] else [])))))))
  let penalty : ℚ :=
    (if b1 then 0.4 else 0) + ((if b2 then 0.3 else 0) + ((if b3 then 0.2 else 0) +
    ((if b4 then 0.15 else 0) + ((if b5 then 0.1 else 0) + ((if b6 then 0.05 else 0) +
    ((if b7 then 0.1 else 0) + (if b8 then 0.5 else 0)))))))
  (flags, min penalty 1)

/-- One suspicion heuristic: whether it triggered on the given address,
its fixed weight, and the flag text it appends. -/
structure SuspicionRule where
  trigger : Bool
  weight : ℚ
  flag : String

/-- The eight suspicion heuristics of the claim, in source order, with
their fixed weights. -/
def suspicionRules (email : List Char) : List SuspicionRule :=
  let local_lower := pyLower (beforeLast '@' email)
  let domain := afterLast '@' email
  let domain_lower := pyLower domain
  let tld := if domain_lower.contains '.' then afterLast '.' domain_lower else []
  let domain_no_tld := if domain_lower.contains '.' then beforeLast '.' domain_lower else domain
  let digit_count := (domain_no_tld.filter Char.isDigit).length
  let letters := (removeChar '-' domain_no_tld).filter Char.isAlpha
  [⟨FREE_EMAIL_PROVIDERS.contains domain_lower, 0.4,
     "Free email provider: " ++ String.mk domain_lower⟩,
   ⟨SUSPICIOUS_TLDS.contains tld, 0.3, "Suspicious TLD: ." ++ String.mk tld⟩,
   ⟨decide (3 < digit_count), 0.2,
     "Domain contains many numbers: " ++ toString digit_count ++ " digits"⟩,
   ⟨decide (4 < letters.length) &&
      ratioBelow ((letters.filter isVowel).length) letters.length, 0.15,
     "Domain appears random (low vowel ratio)"⟩,
   ⟨(lc "no-reply").isPrefixOf local_lower || (lc "noreply").isPrefixOf local_lower, 0.1,
     "No-reply address unlikely to be support contact"⟩,
   ⟨(lc "admin").isPrefixOf local_lower || (lc "postmaster").isPrefixOf local_lower, 0.05,
     "Administrative address unlikely to be support contact"⟩,
   ⟨decide (100 < email.length), 0.1,
     "Unusually long email address: " ++ toString email.length ++ " characters"⟩,
   ⟨ipv4Match domain, 0.5, "Domain is an IP address"⟩]

/-- Helper: flags of the triggered rules, peeled one rule at a time. -/
theorem rulesFlags_cons (b : Bool) (w : ℚ) (f : String) (rest : List SuspicionRule) :
    (((⟨b, w, f⟩ : SuspicionRule) :: rest).filter (fun r => r.trigger)).map
        (fun r => r.flag) =
      (if b then [f] else []) ++
        ((rest.filter (fun r => r.trigger)).map (fun r => r.flag)) := by
  cases b <;> simp [List.filter_cons]

/-- Helper: weight sum of the triggered rules, peeled one rule at a
time. -/
theorem rulesWeight_cons (b : Bool) (w : ℚ) (f : String) (rest : List SuspicionRule) :
    ((((⟨b, w, f⟩ : SuspicionRule) :: rest).filter (fun r => r.trigger)).map
        (fun r => r.weight)).sum =
      (if b then w else 0) +
        (((rest.filter (fun r => r.trigger)).map (fun r => r.weight)).sum) := by
  cases b <;> simp [List.filter_cons]

/-- C5: for every address the suspicion detector returns, when the
address contains an @, exactly the flags of the triggered heuristics in
source order together with the sum of their weights clamped to at most
1; an address with no @ yields the single invalid-format flag with
penalty 1; and on user@gmail.com only the free-provider heuristic
triggers, giving that single flag and penalty exactly 0.4 (hence at
least 0.4). -/
theorem C5_suspicion_penalty_and_flags (email : List Char) :
    (email.contains '@' = false →
      detect_suspicious_patterns email = (["Invalid email format"], 1)) ∧
    (email.contains '@' = true →
      detect_suspicious_patterns email =
        (((suspicionRules email).filter (fun r => r.trigger)).map (fun r => r.flag),
         min ((((suspicionRules email).filter (fun r => r.trigger)).map
           (fun r => r.weight)).sum) 1)) ∧
    detect_suspicious_patterns (lc "user@gmail.com") =
      (["Free email provider: gmail.com"], 0.4) ∧
    "Free email provider: gmail.com" ∈ (detect_suspicious_patterns (lc "user@gmail.com")).1 ∧
    0.4 ≤ (detect_suspicious_patterns (lc "user@gmail.com")).2 := by
  have hmain : ∀ e : List Char, e.contains '@' = true →
      detect_suspicious_patterns e =
        (((suspicionRules e).filter (fun r => r.trigger)).map (fun r => r.flag),
         min ((((suspicionRules e).filter (fun r => r.trigger)).map
           (fun r => r.weight)).sum) 1) := by
    intro e hc
    simp only [detect_suspicious_patterns, suspicionRules, hc, Bool.not_true,
      Bool.false_eq_true, if_false, rulesFlags_cons, rulesWeight_cons,
      List.filter_nil, List.map_nil, List.sum_nil, List.append_nil, add_zero]
  have hr : suspicionRules (lc "user@gmail.com") =
      [⟨true, 0.4, "Free email provider: gmail.com"⟩,
       ⟨false, 0.3, "Suspicious TLD: .com"⟩,
       ⟨false, 0.2, "Domain contains many numbers: 0 digits"⟩,
       ⟨true && ratioBelow 2 5, 0.15, "Domain appears random (low vowel ratio)"⟩,
       ⟨false, 0.1, "No-reply address unlikely to be support contact"⟩,
       ⟨false, 0.05, "Administrative address unlikely to be support contact"⟩,
       ⟨false, 0.1, "Unusually long email address: 14 characters"⟩,
       ⟨false, 0.5, "Domain is an IP address"⟩] := rfl
  have h4 : ratioBelow 2 5 = false := by
    rw [ratioBelow_eq 2 5 (by norm_num)]
    decide
  have hgmail : detect_suspicious_patterns (lc "user@gmail.com") =
      (["Free email provider: gmail.com"], 0.4) := by
    rw [hmain (lc "user@gmail.com") (by decide), hr, h4]
    refine Prod.ext ?_ ?_
    · decide
    · simp only [rulesWeight_cons, List.filter_nil, List.map_nil, List.sum_nil, add_zero]
      norm_num [min_def]
  refine ⟨fun hc => ?_, hmain email, hgmail, ?_, ?_⟩
  · simp only [detect_suspicious_patterns, hc, Bool.not_false, if_true]
  · rw [hgmail]
    decide
  · rw [hgmail]

/-- C5 witness: the no-at-sign and with-at-sign implications
instantiated at concrete addresses. -/
theorem C5_witness :
    detect_suspicious_patterns (lc "nodomain") = (["Invalid email format"], 1) :=
  (C5_suspicion_penalty_and_flags (lc "nodomain")).1 (by decide)

/-- Candidate split point of the domain tail for the unanchored email
regex of web_search.py: position m of the literal dot, which must have a
non-empty domain-character run before it and at least two letters after
it. -/
def dotSplitOk (b : List Char) (m : Nat) : Bool :=
  decide (1 ≤ m) &&
    (match b.drop m with
     | '.' :: c1 :: c2 :: _ => c1.isAlpha && c2.isAlpha
     | _ => false)

/-- Largest valid dot split of the maximal domain-character run, which
is the split Python's backtracking regex engine commits to (it shrinks
the greedy one-or-more domain-character group from longest to shortest
until the literal dot and the two-letter minimum match). -/
def findDotSplit (b : List Char) : Option Nat :=
  (List.range b.length).reverse.find? (dotSplitOk b)

/-- Attempt of the unanchored email pattern at the current position:
greedy run of local characters, the @, greedy run of domain characters
shrunk to the last dot followed by two-or-more letters, and the greedy
letter run after that dot.  Returns the matched substring and the rest
of the input after it, or none if no match starts here. -/
def matchAttempt (s : List Char) : Option (List Char × List Char) :=
  let a := s.takeWhile isLocalChar
  if a.isEmpty then none else
  match s.drop a.length with
  | '@' :: l2 =>
      let b := l2.takeWhile isDomainChar
      (match findDotSplit b with
       | some m =>
           let run := (b.drop (m + 1)).takeWhile Char.isAlpha
           some (a ++ '@' :: (b.take m ++ '.' :: run), l2.drop (m + 1 + run.length))
       | none => none)
  | _ => none

/-- Scanner of re.findall: try a match at every position, left to right,
resuming after the end of each match; the fuel argument (initially the
input length) only serves termination and never runs out. -/
def findAllAux : Nat → List Char → List (List Char)
  | 0, _ => []
  | _, [] => []
  | Nat.succ fuel, c :: t =>
      match matchAttempt (c :: t) with
      | some (m, rest) => m :: findAllAux fuel rest
      | none => findAllAux fuel t

/-- Model of EMAIL_PATTERN.findall(text) in web_search.py. -/
def findAll (s : List Char) : List (List Char) := findAllAux s.length s

/-- Seen-set deduplication loop of extract_emails_from_text, with the
seen set modelled as the list of values inserted so far. -/
def dedupSeen (seen : List (List Char)) : List (List Char) → List (List Char)
  | [] => []
  | e :: rest =>
      if seen.contains e then dedupSeen seen rest
      else e :: dedupSeen (e :: seen) rest

/-- Model of extract_emails_from_text (web_search.py lines 24-46):
regex matches, lower-cased, deduplicated keeping first occurrences. -/
def extract_emails_from_text (text : List Char) : List (List Char) :=
  if text.isEmpty then []
  else dedupSeen [] ((findAll text).map pyLower)

/-- Deduplication as the claim words it: keep the first occurrence of
every value, deleting the later duplicates and preserving the order of
what remains. -/
def dedupKeepFirst : List (List Char) → List (List Char)
  | [] => []
  | x :: xs => x :: dedupKeepFirst (xs.filter (fun y => y != x))
termination_by l => l.length
decreasing_by
  exact Nat.lt_succ_of_le (List.length_filter_le _ _)

/-- Helper: membership is preserved by first-occurrence deduplication. -/
theorem dedupKeepFirst_mem (a : List Char) (l : List (List Char)) :
    a ∈ dedupKeepFirst l ↔ a ∈ l := by
  induction l using dedupKeepFirst.induct with
  | case1 => simp [dedupKeepFirst]
  | case2 x xs ih =>
    rw [dedupKeepFirst]
    by_cases hax : a = x
    · simp [hax]
    · simp [hax, ih, List.mem_filter, bne_iff_ne]

/-- Helper: first-occurrence deduplication yields a subsequence of the
input, hence preserves the relative order of what it keeps. -/
theorem dedupKeepFirst_sublist (l : List (List Char)) :
    (dedupKeepFirst l).Sublist l := by
  induction l using dedupKeepFirst.induct with
  | case1 => simp [dedupKeepFirst]
  | case2 x xs ih =>
    rw [dedupKeepFirst]
    exact (ih.trans (List.filter_sublist _)).cons₂ x

/-- Helper: first-occurrence deduplication yields no duplicates. -/
theorem dedupKeepFirst_nodup (l : List (List Char)) :
    (dedupKeepFirst l).Nodup := by
  induction l using dedupKeepFirst.induct with
  | case1 => simp [dedupKeepFirst]
  | case2 x xs ih =>
    rw [dedupKeepFirst]
    refine List.Nodup.cons (fun hx => ?_) ih
    have hmem := (dedupKeepFirst_mem x _).mp hx
    simp [List.mem_filter] at hmem

/-- Helper: the seen-set loop equals first-occurrence deduplication of
the input with the already-seen values filtered out. -/
theorem dedupSeen_eq (l : List (List Char)) : ∀ seen : List (List Char),
    dedupSeen seen l = dedupKeepFirst (l.filter (fun e => !(seen.contains e))) := by
  induction l with
  | nil => intro seen; simp [dedupSeen, dedupKeepFirst]
  | cons e rest ih =>
    intro seen
    by_cases hs : seen.contains e = true
    · simp only [dedupSeen, hs, if_true, List.filter_cons, Bool.not_true,
        Bool.false_eq_true, if_false]
      exact ih seen
    · have hs' : seen.contains e = false := by
        cases h : seen.contains e
        · rfl
        · exact absurd h hs
      simp only [dedupSeen, hs', Bool.false_eq_true, if_false, List.filter_cons,
        Bool.not_false, if_true]
      rw [dedupKeepFirst, List.filter_filter, ih (e :: seen)]
      congr 1
      congr 1
      refine List.filter_congr (fun a _ => ?_)
      simp only [List.contains_cons, Bool.not_or, Bool.and_comm, bne, beq_eq_decide]

/-- C6: for every input text the extractor equals first-occurrence
deduplication of the lower-cased regex matches; hence its output has no
duplicates, is a subsequence of the lower-cased match list (so
first-seen order is preserved), contains exactly the lower-cased
matches, is empty (not an error) when there is no match, and on the
cited example returns exactly the single normalized address. -/
theorem C6_extractor (text : List Char) :
    extract_emails_from_text text = dedupKeepFirst ((findAll text).map pyLower) ∧
    (extract_emails_from_text text).Nodup ∧
    (extract_emails_from_text text).Sublist ((findAll text).map pyLower) ∧
    (∀ x, x ∈ extract_emails_from_text text ↔ x ∈ (findAll text).map pyLower) ∧
    (findAll text = [] → extract_emails_from_text text = []) ∧
    extract_emails_from_text
        (lc "Contact us at support@example.com or SUPPORT@EXAMPLE.COM") =
      [lc "support@example.com"] := by
  have heq : extract_emails_from_text text =
      dedupKeepFirst ((findAll text).map pyLower) := by
    by_cases h : text.isEmpty
    · have h0 : text = [] := List.isEmpty_iff.mp h
      subst h0
      simp [extract_emails_from_text, dedupKeepFirst, findAll, findAllAux]
    · simp only [extract_emails_from_text, h, Bool.false_eq_true, if_false]
      rw [dedupSeen_eq]
      congr 1
      simp
  refine ⟨heq, ?_, ?_, ?_, ?_, by decide⟩
  · rw [heq]
    exact dedupKeepFirst_nodup _
  · rw [heq]
    exact dedupKeepFirst_sublist _
  · intro x
    rw [heq]
    exact dedupKeepFirst_mem x _
  · intro hf
    rw [heq, hf]
    simp [dedupKeepFirst]

/-- C6 witness: a text with no email-shaped substring extracts to the
empty sequence. -/
theorem C6_witness :
    extract_emails_from_text (lc "no emails here") = [] :=
  (C6_extractor (lc "no emails here")).2.2.2.2.1 (by decide)

/-- Helper: conversion of a valid code point back to its number. -/
theorem char_toNat_ofNat (n : Nat) (h : n < 55296) : (Char.ofNat n).toNat = n := by
  have hv : n.isValidChar := Or.inl h
  simp [Char.ofNat, hv, Char.ofNatAux, Char.toNat, UInt32.toNat, UInt32.ofNat']

/-- Helper: a character with code point at least 33 is not Python
whitespace. -/
theorem pyIsSpace_false_of_toNat (c : Char) (h : 33 ≤ c.toNat) : pyIsSpace c = false := by
  have key : ∀ d : Char, d.toNat < 33 → (c == d) = false := by
    intro d hd
    cases hb : c == d
    · rfl
    · have hc : c = d := eq_of_beq hb
      subst hc
      omega
  unfold pyIsSpace
  rw [key ' ' (by decide), key '\t' (by decide), key '\n' (by decide),
    key '\r' (by decide), key (Char.ofNat 11) (by decide), key (Char.ofNat 12) (by decide)]
  rfl

/-- Helper: lower-casing never changes whether a character is
whitespace. -/
theorem pyIsSpace_charLower (c : Char) : pyIsSpace (charLower c) = pyIsSpace c := by
  unfold charLower
  split_ifs with h
  · have ht : (Char.ofNat (c.toNat + 32)).toNat = c.toNat + 32 :=
      char_toNat_ofNat _ (by omega)
    rw [pyIsSpace_false_of_toNat _ (by omega), pyIsSpace_false_of_toNat c (by omega)]
  · rfl

/-- Helper: a character outside the upper-case range is fixed by
lower-casing. -/
theorem charLower_eq_self (c : Char) (h : ¬(65 ≤ c.toNat ∧ c.toNat ≤ 90)) :
    charLower c = c := by
  unfold charLower
  rw [if_neg h]

/-- Helper: lower-casing a character is idempotent. -/
theorem charLower_idem (c : Char) : charLower (charLower c) = charLower c := by
  by_cases h : 65 ≤ c.toNat ∧ c.toNat ≤ 90
  · have ht : (charLower c).toNat = c.toNat + 32 := by
      unfold charLower
      rw [if_pos h]
      exact char_toNat_ofNat _ (by omega)
    exact charLower_eq_self (charLower c) (by rw [ht]; omega)
  · rw [charLower_eq_self c h, charLower_eq_self c h]

/-- Helper: lower-casing a string is idempotent. -/
theorem pyLower_idem (l : List Char) : pyLower (pyLower l) = pyLower l := by
  simp only [pyLower, List.map_map]
  exact List.map_congr_left (fun c _ => charLower_idem c)

/-- Helper: the head of a dropWhile result fails the predicate. -/
theorem head?_dropWhile_false (p : Char → Bool) (l : List Char) :
    ∀ c, (l.dropWhile p).head? = some c → p c = false := by
  induction l with
  | nil => intro c hc; simp at hc
  | cons h t ih =>
    intro c hc
    rw [List.dropWhile_cons] at hc
    by_cases hp : p h = true
    · rw [if_pos hp] at hc
      exact ih c hc
    · rw [if_neg hp] at hc
      simp at hc
      subst hc
      cases hph : p h
      · rfl
      · exact absurd hph hp

/-- Helper: a non-empty dropWhile result keeps the last element of the
input. -/
theorem getLast?_dropWhile (p : Char → Bool) (l : List Char)
    (h : l.dropWhile p ≠ []) : (l.dropWhile p).getLast? = l.getLast? := by
  obtain ⟨pre, hpre⟩ := List.dropWhile_suffix (l := l) p
  conv_rhs => rw [← hpre]
  rw [List.getLast?_append_of_ne_nil pre h]

/-- Helper: stripping a string whose two ends are not whitespace leaves
it unchanged. -/
theorem pyStrip_eq_self (l : List Char)
    (hh : ∀ c, l.head? = some c → pyIsSpace c = false)
    (hl : ∀ c, l.getLast? = some c → pyIsSpace c = false) :
    pyStrip l = l := by
  have hdrop : ∀ x : List Char, (∀ c, x.head? = some c → pyIsSpace c = false) →
      x.dropWhile pyIsSpace = x := by
    intro x hx
    cases x with
    | nil => rfl
    | cons h t =>
      rw [List.dropWhile_cons, if_neg]
      rw [hx h rfl]
      simp
  unfold pyStrip
  rw [hdrop l hh]
  rw [hdrop l.reverse (fun c hc => hl c (by rwa [List.head?_reverse] at hc))]
  exact List.reverse_reverse l

/-- Helper: the result of a strip has no whitespace at either end. -/
theorem pyStrip_trimmed (l : List Char) :
    (∀ c, (pyStrip l).head? = some c → pyIsSpace c = false) ∧
    (∀ c, (pyStrip l).getLast? = some c → pyIsSpace c = false) := by
  constructor
  · intro c hc
    unfold pyStrip at hc
    rw [List.head?_reverse] at hc
    have hne : (l.dropWhile pyIsSpace).reverse.dropWhile pyIsSpace ≠ [] := by
      intro h0
      rw [h0] at hc
      simp at hc
    rw [getLast?_dropWhile _ _ hne, List.getLast?_reverse] at hc
    exact head?_dropWhile_false _ _ c hc
  · intro c hc
    unfold pyStrip at hc
    rw [List.getLast?_reverse] at hc
    exact head?_dropWhile_false _ _ c hc

/-- Helper: stripping is idempotent. -/
theorem pyStrip_idem (l : List Char) : pyStrip (pyStrip l) = pyStrip l :=
  pyStrip_eq_self _ (pyStrip_trimmed l).1 (pyStrip_trimmed l).2

/-- Helper: stripping commutes with lower-casing. -/
theorem pyStrip_pyLower (l : List Char) :
    pyStrip (pyLower l) = pyLower (pyStrip l) := by
  have hpf : (fun c => pyIsSpace (charLower c)) = pyIsSpace :=
    funext pyIsSpace_charLower
  simp only [pyStrip, pyLower, List.dropWhile_map, Function.comp_def, hpf,
    ← List.map_reverse]

/-- Validation report: the twelve fields of the JSON object
validate_email serializes (the JSON encoding is a bijection on these
fields, so report equality models equality of the returned strings). -/
structure ValidationReport where
  is_valid : Bool
  format_valid : Bool
  format_issues : List String
  domain_exists : Bool
  domain_check_message : String
  domain_matches_brand : Bool
  brand_match_confidence : ℚ
  brand_match_reasoning : String
  suspicion_flags : List String
  suspicion_penalty : ℚ
  validation_score : ℚ
  message : String
deriving DecidableEq

/-- Two-digit zero padding for the fixed-point rendering. -/
def pad2 (n : Nat) : String := if n < 10 then "0" ++ toString n else toString n

/-- Rendering of a score with two decimals, modelling the f-string
format specifier .2f (no claim depends on the rendered digits; the
pipeline claims only need this to be a deterministic function of the
score). -/
def fmt2 (q : ℚ) : String :=
  let m : ℤ := round (q * 100)
  (if m < 0 then "-" else "") ++ toString (m.natAbs / 100) ++ "." ++ pad2 (m.natAbs % 100)

/-- Python str.join with a separator. -/
def joinSep (sep : String) : List String → String
  | [] => ""
  | [x] => x
  | x :: xs => x ++ sep ++ joinSep sep xs

/-- Steps 1-5 of validate_email (email_validator.py lines 408-477) on
the already-normalized address: format check, conditional MX check with
the default 5 second timeout, conditional brand match, suspicion scan,
score composition and message assembly.  The DNS environment is a
function from the queried domain to its outcome. -/
def validateEmailCore (env : List Char → DnsEnv) (email_clean brand_name : List Char)
    (check_mx : Bool) : ValidationReport :=
  let fr := check_email_format email_clean
  let domainPair :=
    if fr.1 && check_mx then
      (check_domain_mx_records (env (afterLast '@' email_clean)) 5 none).1
    else (false, if fr.1 then "Skipped - MX check disabled" else "Skipped")
  let brandTriple :=
    if !brand_name.isEmpty && !(pyStrip brand_name).isEmpty && fr.1 then
      check_domain_matches_brand email_clean brand_name
    else (false, 0, "Skipped - no brand name provided")
  let susp := detect_suspicious_patterns email_clean
  let score := calculate_validation_score fr.1 domainPair.1 brandTriple.1
    brandTriple.2.1 susp.2
  let message0 :=
    if !fr.1 then "Invalid email format: " ++ joinSep ", " fr.2
    else if decide (0.7 ≤ score) then
      "Email appears legitimate (score: " ++ fmt2 score ++ ")"
    else if decide (0.4 ≤ score) then
      "Email may be valid but has concerns (score: " ++ fmt2 score ++ ")"
    else "Email has significant concerns (score: " ++ fmt2 score ++ ")"
  let message :=
    if !susp.1.isEmpty then message0 ++ ". Concerns: " ++ joinSep ", " (susp.1.take 3)
    else message0
  { is_valid := fr.1 && decide (0.3 ≤ score), format_valid := fr.1,
    format_issues := fr.2, domain_exists := domainPair.1,
    domain_check_message := domainPair.2, domain_matches_brand := brandTriple.1,
    brand_match_confidence := brandTriple.2.1,
    brand_match_reasoning := brandTriple.2.2, suspicion_flags := susp.1,
    suspicion_penalty := susp.2, validation_score := score, message := message }

/-- The fixed report validate_email returns for an empty or
whitespace-only address (email_validator.py lines 373-388). -/
def emptyEmailReport : ValidationReport :=
  { is_valid := false, format_valid := false,
    format_issues := ["Email is empty or missing"], domain_exists := false,
    domain_check_message := "Skipped - invalid email", domain_matches_brand := false,
    brand_match_confidence := 0,
    brand_match_reasoning := "Skipped - invalid email", suspicion_flags := [],
    suspicion_penalty := 0, validation_score := 0,
    message := "Error: email is required and cannot be empty." }

/-- Model of validate_email (email_validator.py lines 331-477): the
empty-input guard, the one-time normalization email.strip().lower(), and
the five validation steps (logging and the tool_context read have no
effect on the returned report and are not modelled). -/
def validate_email (env : List Char → DnsEnv) (email brand_name : List Char)
    (check_mx : Bool) : ValidationReport :=
  if email.isEmpty || (pyStrip email).isEmpty then emptyEmailReport
  else validateEmailCore env (pyLower (pyStrip email)) brand_name check_mx

/-- C10: for every empty-or-whitespace-only address, every DNS
environment, every brand name and every check_mx flag, validate_email
returns the fixed early report -- is_valid and format_valid false, the
single issue, domain_exists false, confidence 0, no suspicion flags,
penalty 0 and score 0 -- without consulting the DNS environment, the
brand matcher or the suspicion detector (the result is the same constant
for every env, brand and flag). -/
theorem C10_empty_email_fixed_report (env : List Char → DnsEnv)
    (email brand : List Char) (mx : Bool) (h : pyStrip email = []) :
    validate_email env email brand mx = emptyEmailReport := by
  have h2 : (pyStrip email).isEmpty = true := by rw [h]; rfl
  simp [validate_email, h2]

/-- C10 witness: a whitespace-only address with a live DNS environment,
a brand and MX checking enabled still returns the fixed report. -/
theorem C10_witness :
    validate_email
      (fun _ => ⟨true, MxOutcome.records 1, AOutcome.records 1, HostOutcome.resolves⟩)
      (lc "   ") (lc "Sony") true = emptyEmailReport :=
  C10_empty_email_fixed_report _ _ _ _ (by decide)

/-- C9: for every address with at least one non-whitespace character,
every DNS environment, brand name and check_mx flag, validate_email
returns exactly the same report for the raw address as for its
normalization email.strip().lower(): the pipeline normalizes once up
front, and stripping and lower-casing are idempotent and commute. -/
theorem C9_strip_lower_invariance (env : List Char → DnsEnv) (email brand : List Char)
    (mx : Bool) (h : pyStrip email ≠ []) :
    validate_email env email brand mx =
      validate_email env (pyLower (pyStrip email)) brand mx := by
  have hne : email ≠ [] := fun he => h (by rw [he]; rfl)
  have h1 : email.isEmpty = false := by
    cases email
    · exact absurd rfl hne
    · rfl
  have h2 : (pyStrip email).isEmpty = false := by
    cases hp : pyStrip email
    · exact absurd hp h
    · rfl
  have hsl : pyStrip (pyLower (pyStrip email)) = pyLower (pyStrip email) := by
    rw [pyStrip_pyLower, pyStrip_idem]
  have h3 : (pyLower (pyStrip email)).isEmpty = false := by
    cases hp : pyStrip email
    · exact absurd hp h
    · rfl
  have h4 : (pyStrip (pyLower (pyStrip email))).isEmpty = false := by
    rw [hsl]
    exact h3
  simp only [validate_email, h1, h2, h3, h4, Bool.or_self, Bool.false_eq_true,
    if_false]
  rw [hsl, pyLower_idem]

/-- C9 witness: concrete instantiation on an address with surrounding
whitespace and mixed case. -/
theorem C9_witness :
    validate_email
      (fun _ => ⟨true, MxOutcome.records 1, AOutcome.records 1, HostOutcome.resolves⟩)
      (lc " Support@Sony.com ") (lc "Sony") true =
    validate_email
      (fun _ => ⟨true, MxOutcome.records 1, AOutcome.records 1, HostOutcome.resolves⟩)
      (pyLower (pyStrip (lc " Support@Sony.com "))) (lc "Sony") true :=
  C9_strip_lower_invariance _ _ _ _ (by decide)
